import Mathlib

/-!
# Verification of the MAGI two-round debate orchestrator (`magi_core.py`)

Shallow embedding of the core functions of `magi_core.py`:
`call_agent`, `create_bridge_prompt`, `run_magi_cycle`,
`print_magi_report` and the post-cycle step of `main`.

Modelling conventions:
* Python JSON values are the inductive `Json`; numbers are modelled as
  exact rationals (`ℚ`), idealizing IEEE floats.
* Byte-level concerns are elided: the subprocess's standard output and
  standard error are modelled directly as the decoded strings.
* `json.loads` is an external library function, so `call_agent` is
  parameterized by an arbitrary `json_loads : String → Except String Json`.
* Python exceptions are modelled with `Except String`; the exact message
  strings carried by modelled exceptions are not significant.
* The external subprocess behaviour of one invocation is an environment
  value `SubprocessRun`; what happens to the spawned process is recorded
  as a `ProcessFate`, so that process-reaping on the timeout path is an
  observable result of the function.
-/

/-- A parsed JSON document (Python's `json.loads` result). -/
inductive Json where
  | null : Json
  | bool : Bool → Json
  | num : ℚ → Json
  | str : String → Json
  | arr : List Json → Json
  | obj : List (String × Json) → Json

/-- Python `key in x` (the membership test used on a parsed document).
On a dict it tests keys, on a list it tests element equality (a string
key only ever equals a string element), on a string it is the substring
test; on `None`, booleans and numbers it raises `TypeError`. -/
def py_contains (key : String) : Json → Except String Bool
  | .obj kvs => .ok (kvs.any (fun kv => kv.1 == key))
  | .arr xs => .ok (xs.any (fun j => match j with | .str s => s == key | _ => false))
  | .str s => .ok (key.isEmpty || (s.splitOn key).length ≥ 2)
  | .null => .error "TypeError: argument of type NoneType is not iterable"
  | .bool _ => .error "TypeError: argument of type bool is not iterable"
  | .num _ => .error "TypeError: argument of type number is not iterable"

/-- The condition `"claim" in parsed and "confidence" in parsed` of
`call_agent` (line 50), with Python's short-circuit `and`. -/
def contains_check (parsed : Json) : Except String Bool := do
  let c ← py_contains "claim" parsed
  if c then py_contains "confidence" parsed else pure false

/-- Python `d.get(key, default)`: on a dict, the value bound to `key`
(first binding; `json.loads` produces unique keys) or `default`;
on any non-dict value, `AttributeError`. -/
def py_get (j : Json) (key : String) (default : Json) : Except String Json :=
  match j with
  | .obj kvs => .ok (((kvs.find? (fun kv => kv.1 == key)).map Prod.snd).getD default)
  | _ => .error "AttributeError: object has no attribute get"

/-- `TIMEOUT_SECONDS = 120` (line 13). -/
def TIMEOUT_SECONDS : ℚ := 120

/-- The `AGENTS` roster (lines 7–11), in source (insertion) order. -/
def AGENTS : List (String × String) :=
  [("melchior-1", "melchior-1"), ("balthasar-2", "balthasar-2"), ("casper-3", "casper-3")]

/-- The result dict of one `call_agent` invocation. `agent`, `status`
and `latency` keys are present on every return path of the source;
`output`, `raw` and `error` only on some, hence `Option`. Statuses are
the literal strings used by the source. -/
structure Outcome where
  agent : String
  status : String
  output : Option Json := none
  raw : Option String := none
  error : Option String := none
  latency : ℚ

/-- Environment describing how the external `ollama` subprocess of one
invocation behaves: launching raises an exception, or `communicate`
exceeds `TIMEOUT_SECONDS` (with `already_dead` telling whether the
subsequent `kill` finds the process already gone, raising
`ProcessLookupError`), or the process completes within the bound with
the given exit code, decoded standard output / standard error, and
measured elapsed wall-clock time. -/
inductive SubprocessRun where
  | launch_failure (exn : String)
  | times_out (already_dead : Bool)
  | completes (returncode : Int) (stdout stderr : String) (elapsed : ℚ)

/-- What `call_agent` left behind of the spawned process. -/
inductive ProcessFate where
  | never_launched
  | exited (returncode : Int)
  | reaped_after_kill
  | gone_before_kill

/-- `call_agent` (lines 17–66). The `try` block catches exactly
`json.JSONDecodeError` (giving the `invalid_json` return, line 57) and
`asyncio.TimeoutError` (giving the `timeout` return, line 66, after
`process.kill(); await process.wait()` guarded against
`ProcessLookupError`). Any other exception — in particular a failure of
`asyncio.create_subprocess_exec` itself, or a `TypeError` raised by the
membership test on a non-container document — propagates to the caller,
modelled as `Except.error`. Note lines 51 and 54: the two branches of
the claim/confidence test return identical dicts. -/
def call_agent (name _model prompt : String)
    (json_loads : String → Except String Json)
    (run : SubprocessRun) : Except String Outcome × ProcessFate :=
  match run with
  | .launch_failure exn => (.error exn, .never_launched)
  | .times_out already_dead =>
      (.ok { agent := name, status := "timeout", latency := TIMEOUT_SECONDS },
       if already_dead then .gone_before_kill else .reaped_after_kill)
  | .completes returncode stdout stderr elapsed =>
      if returncode ≠ 0 then
        (.ok { agent := name, status := "error", error := some stderr.trim,
               latency := elapsed }, .exited returncode)
      else
        match json_loads stdout with
        | .error e =>
            (.ok { agent := name, status := "invalid_json", raw := some stdout,
                   error := some e, latency := elapsed }, .exited returncode)
        | .ok parsed =>
            match contains_check parsed with
            | .error e => (.error e, .exited returncode)
            | .ok true =>
                (.ok { agent := name, status := "ok", output := some parsed,
                       latency := elapsed }, .exited returncode)
            | .ok false =>
                (.ok { agent := name, status := "ok", output := some parsed,
                       latency := elapsed }, .exited returncode)

mutual

/-- Python `str(x)` for a JSON value, as interpolated by the f-strings of
`create_bridge_prompt` (lines 84–87). The rendering of containers and
numbers is an approximation of CPython's (exact quoting/float formatting
is immaterial: no verified property below inspects the rendered text). -/
def py_str : Json → String
  | .null => "None"
  | .bool true => "True"
  | .bool false => "False"
  | .num q => toString q
  | .str s => s
  | .arr xs => "[" ++ py_str_list xs ++ "]"
  | .obj kvs => "\x7b" ++ py_str_entries kvs ++ "\x7d"

/-- Comma-separated rendering of a JSON array's elements. -/
def py_str_list : List Json → String
  | [] => ""
  | [j] => py_str j
  | j :: rest => py_str j ++ ", " ++ py_str_list rest

/-- Comma-separated rendering of a JSON object's entries. -/
def py_str_entries : List (String × Json) → String
  | [] => ""
  | [kv] => kv.1 ++ ": " ++ py_str kv.2
  | kv :: rest => kv.1 ++ ": " ++ py_str kv.2 ++ ", " ++ py_str_entries rest

end

/-- Python `sep.join(x)`: joins a list of strings (`TypeError` if any
element is not a string), the characters of a string, or the keys of a
dict; `TypeError` on anything else. -/
def py_join (sep : String) : Json → Except String String
  | .arr xs =>
      if xs.all (fun j => match j with | .str _ => true | _ => false) then
        .ok (String.intercalate sep
          (xs.map (fun j => match j with | .str s => s | _ => "")))
      else .error "TypeError: sequence item is not a string"
  | .str s => .ok (String.intercalate sep (s.toList.map Char.toString))
  | .obj kvs => .ok (String.intercalate sep (kvs.map Prod.fst))
  | _ => .error "TypeError: can only join an iterable of strings"

/-- The data of one peer block of a bridge prompt, before formatting:
the peer's name and the raw values extracted (with defaults) from its
round-1 result (lines 79–82). -/
structure Block where
  name : String
  claim : Json
  confidence : Json
  failure_modes : Json

/-- Lines 79–82 of `create_bridge_prompt`, for one entry of the results
map: `output = data.get('output', {})` then the three `output.get`s with
their defaults. Raises `AttributeError` (propagated) when the stored
`output` value is not a dict. -/
def extract_block (name : String) (data : Outcome) : Except String Block := do
  let output := data.output.getD (Json.obj [])
  let claim ← py_get output "claim" (Json.str "No claim provided")
  let confidence ← py_get output "confidence" (Json.num 0)
  let failure_modes ← py_get output "failure_modes" (Json.arr [])
  pure { name := name, claim := claim, confidence := confidence,
         failure_modes := failure_modes }

/-- Lines 84–87: the text appended to `others_text` for one peer block.
`', '.join(failure_modes)` may raise `TypeError` (propagated). -/
def render_block (b : Block) : Except String String := do
  let fm ← py_join ", " b.failure_modes
  pure ("\n**NODE " ++ b.name.toUpper ++ " REPORT:**\n"
     ++ "- CLAIM: " ++ py_str b.claim ++ "\n"
     ++ "- CONFIDENCE: " ++ py_str b.confidence ++ "\n"
     ++ "- FAILURE MODES IDENTIFIED: " ++ fm ++ "\n")

/-- The loop of `create_bridge_prompt` (lines 74–87): iterates the
results map in insertion order, skips the entry equal to `agent_name`,
and accumulates the rendered block of every other entry. Entries absent
from the map are never visited. -/
def others_text (agent_name : String) : List (String × Outcome) → Except String String
  | [] => .ok ""
  | (name, data) :: rest =>
      if name = agent_name then others_text agent_name rest
      else do
        let b ← extract_block name data
        let t ← render_block b
        let ts ← others_text agent_name rest
        pure (t ++ ts)

/-- The peer blocks of the loop of `create_bridge_prompt`, kept as data
rather than rendered to text: one block per non-self entry of the
results map, in map order. -/
def bridge_blocks (agent_name : String) : List (String × Outcome) → Except String (List Block)
  | [] => .ok []
  | (name, data) :: rest =>
      if name = agent_name then bridge_blocks agent_name rest
      else do
        let b ← extract_block name data
        let bs ← bridge_blocks agent_name rest
        pure (b :: bs)

/-- Lines 89–97: the fixed wrapper around `others_text`. -/
def wrap_prompt (original_prompt others : String) : String :=
  "ORIGINAL INPUT: " ++ original_prompt ++ "\n\n"
    ++ "SYSTEM ALERT: DATA SYNCHRONIZATION PHASE.\n"
    ++ "The other MAGI nodes have processed the scenario. Review their outputs below:\n"
    ++ others ++ "\n\n"
    ++ "DIRECTIVE: Re-evaluate your original calculation based on these variables. "
    ++ "If another node identifies a risk or advantage you missed, adjust your parameters. "
    ++ "Output your FINAL updated JSON analysis."

/-- `create_bridge_prompt` (lines 68–98). -/
def create_bridge_prompt (agent_name original_prompt : String)
    (results_map : List (String × Outcome)) : Except String String :=
  (others_text agent_name results_map).map (wrap_prompt original_prompt)

/-- Sequential effectful map: the first raised exception propagates and
later elements are not evaluated (the shape of a Python `for` loop whose
body may raise, and of processing `asyncio.gather` results in order). -/
def mapE {α β : Type} (f : α → Except String β) : List α → Except String (List β)
  | [] => .ok []
  | a :: as => do
    let b ← f a
    let bs ← mapE f as
    pure (b :: bs)

/-- Python dict assignment `m[k] = v`: replaces the value in place when
the key exists, else appends the new binding (insertion order). -/
def dict_insert (m : List (String × Outcome)) (k : String) (v : Outcome) :
    List (String × Outcome) :=
  if (m.map Prod.fst).contains k then
    m.map (fun kv => if kv.1 = k then (k, v) else kv)
  else m ++ [(k, v)]

/-- Python dict subscript lookup, as an optional value (`None` stands
for the `KeyError` case, handled at the use site). -/
def dict_get (m : List (String × Outcome)) (k : String) : Option Outcome :=
  (m.find? (fun kv => kv.1 == k)).map Prod.snd

/-- Line 108: `{r['agent']: r for r in results_r1_list if r['status'] == 'ok'}`. -/
def build_results_map (rs : List Outcome) : List (String × Outcome) :=
  rs.foldl (fun m r => if r.status = "ok" then dict_insert m r.agent r else m) []

/-- The observable result of one `run_magi_cycle` session: its return
value (`Except.ok none` models `return None` on quorum failure,
`Except.error` a propagated exception) and the agent invocations it
launched, each recorded as (round, name, model, prompt). -/
structure CycleRun where
  result : Except String (Option (List Outcome))
  calls : List (Nat × String × String × String)

/-- `run_magi_cycle` (lines 100–136), parameterized by `invoke`: the
outcome each `call_agent` coroutine delivers for a given (name, model,
prompt). (Invocations that would raise instead of returning an outcome
are settled at the `call_agent` level; see `call_agent` itself.)
Round 1 fans out over `AGENTS`; the quorum check (line 110) compares
the ok-filtered results dict against the literal 3 and returns `None`
on failure, before any round-2 work. Round-2 bridge prompts are built
sequentially (an exception there propagates before any round-2 launch).
The merge (lines 127–134) takes a round-2 outcome when its status is
`ok`, else the round-1 dict entry for that outcome's `agent` key — a
missing key is Python's `KeyError`, modelled as `Except.error`. -/
def run_magi_cycle (invoke : String → String → String → Outcome)
    (user_prompt : String) : CycleRun :=
  let results_r1_list := AGENTS.map (fun p => invoke p.1 p.2 user_prompt)
  let calls_r1 := AGENTS.map (fun p => (1, p.1, p.2, user_prompt))
  let results_r1_map := build_results_map results_r1_list
  if results_r1_map.length < 3 then
    { result := .ok none, calls := calls_r1 }
  else
    match mapE (fun p => (create_bridge_prompt p.1 user_prompt results_r1_map).map
        (fun bp => (p.1, p.2, bp))) AGENTS with
    | .error e => { result := .error e, calls := calls_r1 }
    | .ok tasks_r2 =>
      let results_r2_list := tasks_r2.map (fun t => invoke t.1 t.2.1 t.2.2)
      let calls_r2 := tasks_r2.map (fun t => (2, t.1, t.2.1, t.2.2))
      match mapE (fun r =>
          if r.status = "ok" then Except.ok r
          else match dict_get results_r1_map r.agent with
            | some prev => Except.ok prev
            | none => Except.error "KeyError") results_r2_list with
      | .error e => { result := .error e, calls := calls_r1 ++ calls_r2 }
      | .ok final_results =>
        { result := .ok (some final_results), calls := calls_r1 ++ calls_r2 }

/-- Lines 149–152 and 165 of `print_magi_report`, for one result:
`data = res.get('output', {})`, then `data.get('confidence', 0.0)`,
which must be a number for the `:.2f` formatting and the `+=` to go
through (a Python bool formats and adds as 0/1). A non-dict `data`
raises `AttributeError` at the `.get`, a non-numeric confidence raises
at formatting/addition; both propagate. -/
def py_confidence (res : Outcome) : Except String ℚ := do
  let data := res.output.getD (Json.obj [])
  let confidence ← py_get data "confidence" (Json.num 0)
  match confidence with
  | .num q => pure q
  | .bool b => pure (if b then 1 else 0)
  | _ => .error "TypeError: confidence is not a number"

/-- The accumulation loop of `print_magi_report` (lines 143–166):
`total_confidence` and `valid_nodes` over the results list. Every
result counts in `valid_nodes`, whatever its status or payload.
(Summation is regrouped to the right; `ℚ` addition is associative and
commutative, so the total is the source's.) -/
def sum_confidences : List Outcome → Except String (ℚ × Nat)
  | [] => .ok (0, 0)
  | res :: rest => do
    let confidence ← py_confidence res
    let (total, count) ← sum_confidences rest
    pure (confidence + total, count + 1)

/-- `print_magi_report` (lines 138–188), reduced to the data it
computes: the aggregate `avg_score` (line 170, with the `valid_nodes
> 0` guard of line 169) and the resolution `status` line selected by
the threshold cascade of lines 178–185. The surrounding `print`
formatting is presentation, out of scope. -/
def print_magi_report (results : List Outcome) : Except String (ℚ × String) := do
  let (total_confidence, valid_nodes) ← sum_confidences results
  let avg_score := if valid_nodes > 0 then total_confidence / (valid_nodes : ℚ) else 0
  let status :=
    if avg_score ≥ 7/10 then ">> RESOLUTION: UNANIMOUS APPROVAL <<"
    else if avg_score ≥ 1/2 then ">> RESOLUTION: MAJORITY APPROVAL (CONDITIONAL) <<"
    else if avg_score ≥ 3/10 then ">> RESOLUTION: DEADLOCK / HUMAN INTERVENTION REQUIRED <<"
    else ">> RESOLUTION: REJECTION <<"
  pure (avg_score, status)

/-- Lines 200–201 of `main`: the cycle's return value is passed to
`print_magi_report` unconditionally. When `run_magi_cycle` returned
`None` (quorum failure), the `for res in results` of line 147 iterates
over `None` and raises `TypeError`; a propagated exception from the
cycle itself also surfaces. -/
def report_entry (cycle : CycleRun) : Except String (ℚ × String) :=
  match cycle.result with
  | .error e => .error e
  | .ok none => .error "TypeError: NoneType object is not iterable"
  | .ok (some results) => print_magi_report results

/-- Spec-side (§4.4): `averageConfidence = sum ÷ count`, an empty
sequence yielding 0. Written from the spec's words, to be compared with
what `print_magi_report` computes. -/
def spec_average (cs : List ℚ) : ℚ :=
  if cs.length = 0 then 0 else cs.sum / (cs.length : ℚ)

/-- The resolution tiers named by the spec (§4.4, glossary). -/
inductive ResolutionTier where
  | Approval
  | ConditionalApproval
  | Deadlock
  | Rejection

/-- Spec-side (§4.4): tier selection by descending thresholds,
written from the spec's words. -/
def spec_tier (avg : ℚ) : ResolutionTier :=
  if avg ≥ 7/10 then .Approval
  else if avg ≥ 1/2 then .ConditionalApproval
  else if avg ≥ 3/10 then .Deadlock
  else .Rejection

/-- The status line the source prints for each tier (lines 178–185). -/
def tier_label : ResolutionTier → String
  | .Approval => ">> RESOLUTION: UNANIMOUS APPROVAL <<"
  | .ConditionalApproval => ">> RESOLUTION: MAJORITY APPROVAL (CONDITIONAL) <<"
  | .Deadlock => ">> RESOLUTION: DEADLOCK / HUMAN INTERVENTION REQUIRED <<"
  | .Rejection => ">> RESOLUTION: REJECTION <<"

/-- Spec-side (§3, §4.1): the tagged payload variant the spec describes
for an ok outcome. Written from the spec's words, to be compared with
what `call_agent` actually returns. -/
inductive SpecPayload where
  | NormalizedClaim (claim : Json) (confidence : Json) (failureModes : Json)
  | RawWrapped (data : Json)

/-- Spec-side (§4.1): the normalization the spec describes — a document
exposing claim/confidence fields becomes `NormalizedClaim` with
`failureModes` defaulted to an empty sequence if absent, anything else
is wrapped as-is. Written from the spec's words. -/
def spec_normalize (doc : Json) : SpecPayload :=
  match doc with
  | .obj kvs =>
      if kvs.any (fun kv => kv.1 == "claim") ∧ kvs.any (fun kv => kv.1 == "confidence") then
        .NormalizedClaim
          (((kvs.find? (fun kv => kv.1 == "claim")).map Prod.snd).getD .null)
          (((kvs.find? (fun kv => kv.1 == "confidence")).map Prod.snd).getD .null)
          (((kvs.find? (fun kv => kv.1 == "failure_modes")).map Prod.snd).getD (.arr []))
      else .RawWrapped doc
  | _ => .RawWrapped doc

/-- Concatenation of a list of rendered peer-block texts, in order (the
accumulated `others_text` of the loop). -/
def concat_texts : List String → String
  | [] => ""
  | t :: ts => t ++ concat_texts ts

/-- A sample parsed agent document exposing claim and confidence. -/
def sample_claim_output : Json :=
  Json.obj [("claim", Json.str "a"), ("confidence", Json.num 1)]

/-- A concrete full-roster round-1 results map used to exercise the
bridge-prompt builder: one peer with a claim document, two whose stored
outcomes have no `output` key at all. -/
def c4_map : List (String × Outcome) :=
  [("melchior-1", Outcome.mk "melchior-1" "ok" (some sample_claim_output) none none 1),
   ("balthasar-2", Outcome.mk "balthasar-2" "ok" none none none 1),
   ("casper-3", Outcome.mk "casper-3" "ok" none none none 1)]

/-- A parsed agent document exposing only a confidence field. -/
def conf_output (q : ℚ) : Json := Json.obj [("confidence", Json.num q)]

/-- Concrete final-outcome list exercising the aggregator: two ok nodes
with confidences 9/10 and 3/5, one failed node with no payload (which
must still count in the denominator, contributing 0). -/
def c1_results : List Outcome :=
  [Outcome.mk "melchior-1" "ok" (some (conf_output (9/10))) none none 1,
   Outcome.mk "balthasar-2" "ok" (some (conf_output (3/5))) none none 1,
   Outcome.mk "casper-3" "error" none none none 1]

/-- The per-outcome confidence of `c1_results`, keyed by agent name. -/
def c1_conf (r : Outcome) : ℚ :=
  if r.agent = "melchior-1" then 9/10
  else if r.agent = "balthasar-2" then 3/5
  else 0

/-- A session behaviour in which `melchior-1` times out in round 1 and
the other two agents answer ok: a quorum failure. -/
def quorum_fail_invoke : String → String → String → Outcome :=
  fun n _ _ =>
    if n = "melchior-1" then Outcome.mk n "timeout" none none none 120
    else Outcome.mk n "ok" (some sample_claim_output) none none 1

/-- A session behaviour in which every agent answers ok to the round-1
user prompt `"q"` and times out on any other (round-2, bridge) prompt. -/
def c2_invoke : String → String → String → Outcome :=
  fun n _ p =>
    if p = "q" then Outcome.mk n "ok" (some sample_claim_output) none none 1
    else Outcome.mk n "timeout" none none none 120

/-- The round-1 ok-results map of a session (line 108 applied to the
round-1 fan-out of lines 104–105). -/
def r1_map (invoke : String → String → String → Outcome)
    (user_prompt : String) : List (String × Outcome) :=
  build_results_map (AGENTS.map (fun p => invoke p.1 p.2 user_prompt))

/-- The round-2 bridge prompt `run_magi_cycle` builds for agent `X`
(line 120), as a plain string (empty when building raised). -/
def bridge_of (invoke : String → String → String → Outcome)
    (user_prompt X : String) : String :=
  (create_bridge_prompt X user_prompt (r1_map invoke user_prompt)).toOption.getD ""

/-- **C5** (confirmed). For every invocation whose external process
exceeds the timeout bound, `call_agent` returns status `"timeout"` with
latency exactly `TIMEOUT_SECONDS` (= 120, the bound — not a measured
elapsed time, which the timeout branch never computes), and the spawned
process is left killed-and-reaped (or found already gone when `kill`
raises `ProcessLookupError`) — never running. -/
theorem C5_timeout_bound_and_reap (name model prompt : String)
    (json_loads : String → Except String Json) (already_dead : Bool) :
    call_agent name model prompt json_loads (.times_out already_dead) =
      (.ok { agent := name, status := "timeout", latency := TIMEOUT_SECONDS },
       if already_dead then ProcessFate.gone_before_kill
       else ProcessFate.reaped_after_kill) ∧
    TIMEOUT_SECONDS = 120 :=
  ⟨rfl, rfl⟩

/-- **C9** (confirmed). An invocation whose process exits zero but whose
standard output fails structured parsing returns status
`"invalid_json"`, the raw output preserved exactly as received, the
parse diagnostic as the error message, and the measured elapsed time as
latency. -/
theorem C9_invalid_json_preserves_raw (name model prompt stdout stderr : String)
    (json_loads : String → Except String Json) (elapsed : ℚ) (diag : String)
    (hparse : json_loads stdout = .error diag) :
    (call_agent name model prompt json_loads (.completes 0 stdout stderr elapsed)).1 =
      .ok { agent := name, status := "invalid_json", raw := some stdout,
            error := some diag, latency := elapsed } := by
  simp [call_agent, hparse]

/-- Witness for C9 at a concrete invocation. -/
theorem C9_invalid_json_preserves_raw_witness :
    (call_agent "melchior-1" "melchior-1" "p"
        (fun _ => .error "Expecting value: line 1 column 1")
        (.completes 0 "not json" "" 2)).1 =
      .ok { agent := "melchior-1", status := "invalid_json", raw := some "not json",
            error := some "Expecting value: line 1 column 1", latency := 2 } :=
  C9_invalid_json_preserves_raw "melchior-1" "melchior-1" "p" "not json" "" _ 2
    "Expecting value: line 1 column 1" rfl

/-- **C10** (confirmed). On every path on which `call_agent` returns a
value (rather than propagating an exception), the outcome's `agent`
field is the `name` argument, its status is one of the four literals
`ok`, `error`, `invalid_json`, `timeout`, its latency field is present
(the `Outcome` structure makes it mandatory because every return dict
of the source carries it), and an `output` payload is present exactly
when the status is `ok`. -/
theorem C10_returned_outcome_shape (name model prompt : String)
    (json_loads : String → Except String Json) (run : SubprocessRun)
    (o : Outcome) (fate : ProcessFate)
    (h : call_agent name model prompt json_loads run = (.ok o, fate)) :
    o.agent = name ∧
    (o.status = "ok" ∨ o.status = "error" ∨ o.status = "invalid_json" ∨
      o.status = "timeout") ∧
    (o.output.isSome ↔ o.status = "ok") := by
  unfold call_agent at h
  cases run with
  | launch_failure exn => simp at h
  | times_out d =>
      simp only [Prod.mk.injEq, Except.ok.injEq] at h
      obtain ⟨h1, -⟩ := h
      subst h1
      refine ⟨rfl, by simp, by simp⟩
  | completes rc stdout stderr elapsed =>
      by_cases hrc : rc = 0
      · subst hrc
        simp only [ne_eq, not_true_eq_false, if_false, ite_false, reduceIte] at h
        cases hjs : json_loads stdout with
        | error e =>
            rw [hjs] at h
            simp only [Prod.mk.injEq, Except.ok.injEq] at h
            obtain ⟨h1, -⟩ := h
            subst h1
            refine ⟨rfl, by simp, by simp⟩
        | ok parsed =>
            rw [hjs] at h
            simp only [] at h
            cases hcc : contains_check parsed with
            | error e => rw [hcc] at h; simp at h
            | ok b =>
                rw [hcc] at h
                cases b <;>
                  · simp only [Prod.mk.injEq, Except.ok.injEq] at h
                    obtain ⟨h1, -⟩ := h
                    subst h1
                    refine ⟨rfl, by simp, by simp⟩
      · simp only [ne_eq, hrc, not_false_eq_true, if_true, ite_true,
          Prod.mk.injEq, Except.ok.injEq] at h
        obtain ⟨h1, -⟩ := h
        subst h1
        refine ⟨rfl, by simp, by simp⟩

/-- Witness for C10 at a concrete invocation that returns. -/
theorem C10_returned_outcome_shape_witness :
    ((Outcome.mk "casper-3" "timeout" none none none TIMEOUT_SECONDS).agent
        = "casper-3") ∧
    ((Outcome.mk "casper-3" "timeout" none none none TIMEOUT_SECONDS).status = "ok" ∨
      (Outcome.mk "casper-3" "timeout" none none none TIMEOUT_SECONDS).status
        = "error" ∨
      (Outcome.mk "casper-3" "timeout" none none none TIMEOUT_SECONDS).status
        = "invalid_json" ∨
      (Outcome.mk "casper-3" "timeout" none none none TIMEOUT_SECONDS).status
        = "timeout") ∧
    ((Outcome.mk "casper-3" "timeout" none none none TIMEOUT_SECONDS).output.isSome ↔
      (Outcome.mk "casper-3" "timeout" none none none TIMEOUT_SECONDS).status
        = "ok") :=
  C10_returned_outcome_shape "casper-3" "casper-3" "p" (fun _ => .error "x")
    (.times_out false) _ _ rfl

/-- **C6 counterexample** (claim is false on the code). Concrete
invocation: the process exits zero and its output parses to the
document `obj [claim ↦ "c", confidence ↦ 1/2]`, which exposes claim and
confidence but no `failure_modes` field. The claim requires the
returned payload to be a tagged `NormalizedClaim` with `failureModes`
defaulted to the empty sequence (as `spec_normalize` of the document,
third conjunct, would give). The code instead returns the parsed
document entirely as-is — the outcome's `output` field is the untagged
document, which (second conjunct) still has no `failure_modes` member —
and the `RawWrapped` branch (lines 52–54) returns a dict of the
identical shape, so no distinct variant exists in the result. -/
theorem C6_counterexample :
    (call_agent "melchior-1" "melchior-1" "p"
        (fun _ => .ok (Json.obj [("claim", Json.str "c"), ("confidence", Json.num (1/2))]))
        (.completes 0 "out" "" 1)).1 =
      .ok { agent := "melchior-1", status := "ok",
            output := some (Json.obj
              [("claim", Json.str "c"), ("confidence", Json.num (1/2))]),
            latency := 1 } ∧
    py_contains "failure_modes"
        (Json.obj [("claim", Json.str "c"), ("confidence", Json.num (1/2))])
      = .ok false ∧
    spec_normalize (Json.obj [("claim", Json.str "c"), ("confidence", Json.num (1/2))])
      = .NormalizedClaim (Json.str "c") (Json.num (1/2)) (Json.arr []) := by
  refine ⟨?_, ?_, ?_⟩ <;> rfl

/-- **C6 amended** (proved). For every invocation whose process exits
zero and whose output parses successfully (and whose claim/confidence
membership test evaluates, to either truth value `b`), the outcome has
status `"ok"` and its `output` payload is the parsed document exactly
as-is. The conclusion does not depend on `b`: the two cases of the
source's claim/confidence test return identical, indistinguishable
results — there is no tagged variant and no `failure_modes`
defaulting at normalization time. -/
theorem C6_amended_ok_passthrough (name model prompt stdout stderr : String)
    (json_loads : String → Except String Json) (elapsed : ℚ) (parsed : Json) (b : Bool)
    (hparse : json_loads stdout = .ok parsed)
    (hcheck : contains_check parsed = .ok b) :
    (call_agent name model prompt json_loads (.completes 0 stdout stderr elapsed)).1 =
      .ok { agent := name, status := "ok", output := some parsed, latency := elapsed } := by
  cases b <;> simp [call_agent, hparse, hcheck]

/-- Witness for the amended C6, exercising both membership-test results:
a document with claim/confidence fields and one without produce
identically shaped ok outcomes. -/
theorem C6_amended_ok_passthrough_witness :
    (call_agent "balthasar-2" "balthasar-2" "p"
        (fun _ => .ok (Json.obj [("claim", Json.str "c"), ("confidence", Json.num 1)]))
        (.completes 0 "s" "" 3)).1 =
      .ok { agent := "balthasar-2", status := "ok",
            output := some (Json.obj [("claim", Json.str "c"), ("confidence", Json.num 1)]),
            latency := 3 } ∧
    (call_agent "balthasar-2" "balthasar-2" "p"
        (fun _ => .ok (Json.obj [("response", Json.str "legacy")]))
        (.completes 0 "s" "" 3)).1 =
      .ok { agent := "balthasar-2", status := "ok",
            output := some (Json.obj [("response", Json.str "legacy")]),
            latency := 3 } :=
  ⟨C6_amended_ok_passthrough "balthasar-2" "balthasar-2" "p" "s" "" _ 3 _ true rfl rfl,
   C6_amended_ok_passthrough "balthasar-2" "balthasar-2" "p" "s" "" _ 3 _ false rfl rfl⟩

/-- **C7 counterexample** (claim is false on the code). Concrete
invocation in which launching the external process itself fails
(`asyncio.create_subprocess_exec` raises, e.g. `FileNotFoundError`
when the `ollama` binary is missing): `call_agent` does not return a
typed failure `Outcome` — no `except` clause covers this exception, so
it propagates to the orchestrator (aborting the `asyncio.gather` of the
round), modelled as `Except.error`. -/
theorem C7_counterexample :
    call_agent "melchior-1" "melchior-1" "p" (fun _ => .error "x")
        (.launch_failure "FileNotFoundError: ollama") =
      (.error "FileNotFoundError: ollama", .never_launched) :=
  rfl

/-- **C7 amended** (proved). NonZeroExit, TimeoutExpired and
MalformedPayload each degrade that agent's result to a typed failure
`Outcome` (statuses `"error"`, `"timeout"`, `"invalid_json"`) without
raising; a launch failure, by contrast, is not handled — the exception
propagates out of `call_agent` rather than becoming an `Outcome`. -/
theorem C7_amended_failure_taxonomy (name model prompt : String)
    (json_loads : String → Except String Json) :
    (∀ exn, call_agent name model prompt json_loads (.launch_failure exn) =
      (.error exn, .never_launched)) ∧
    (∀ (rc : Int) stdout stderr (elapsed : ℚ), rc ≠ 0 →
      (call_agent name model prompt json_loads (.completes rc stdout stderr elapsed)).1 =
        .ok { agent := name, status := "error", error := some stderr.trim,
              latency := elapsed }) ∧
    (∀ already_dead,
      (call_agent name model prompt json_loads (.times_out already_dead)).1 =
        .ok { agent := name, status := "timeout", latency := TIMEOUT_SECONDS }) ∧
    (∀ stdout stderr (elapsed : ℚ) diag, json_loads stdout = .error diag →
      (call_agent name model prompt json_loads (.completes 0 stdout stderr elapsed)).1 =
        .ok { agent := name, status := "invalid_json", raw := some stdout,
              error := some diag, latency := elapsed }) := by
  refine ⟨fun exn => rfl, fun rc stdout stderr elapsed hrc => ?_,
    fun already_dead => rfl, fun stdout stderr elapsed diag hp => ?_⟩
  · simp [call_agent, hrc]
  · simp [call_agent, hp]

/-- Witness for the amended C7, exercising every conjunct at concrete
inputs and discharging both hypotheses. -/
theorem C7_amended_failure_taxonomy_witness :
    call_agent "casper-3" "casper-3" "p" (fun _ => .error "bad")
        (.launch_failure "FileNotFoundError") =
      (.error "FileNotFoundError", .never_launched) ∧
    (call_agent "casper-3" "casper-3" "p" (fun _ => .error "bad")
        (.completes 1 "o" " boom " 2)).1 =
      .ok { agent := "casper-3", status := "error", error := some " boom ".trim,
            latency := 2 } ∧
    (call_agent "casper-3" "casper-3" "p" (fun _ => .error "bad")
        (.times_out true)).1 =
      .ok { agent := "casper-3", status := "timeout", latency := TIMEOUT_SECONDS } ∧
    (call_agent "casper-3" "casper-3" "p" (fun _ => .error "bad")
        (.completes 0 "o" "" 2)).1 =
      .ok { agent := "casper-3", status := "invalid_json", raw := some "o",
            error := some "bad", latency := 2 } :=
  ⟨(C7_amended_failure_taxonomy "casper-3" "casper-3" "p" _).1 "FileNotFoundError",
   (C7_amended_failure_taxonomy "casper-3" "casper-3" "p" _).2.1 1 "o" " boom " 2
     (by decide),
   (C7_amended_failure_taxonomy "casper-3" "casper-3" "p" _).2.2.1 true,
   (C7_amended_failure_taxonomy "casper-3" "casper-3" "p" _).2.2.2 "o" "" 2 "bad" rfl⟩

/-- `extract_block`, in closed form: the three field defaults applied to
the entry's stored output when that output is a dict (the default `obj
[]` standing in when the `output` key is absent), `AttributeError`
otherwise. -/
theorem extract_block_eq (n : String) (d : Outcome) :
    extract_block n d = match d.output.getD (Json.obj []) with
      | .obj kvs => .ok (Block.mk n
          (((kvs.find? (fun kv => kv.1 == "claim")).map Prod.snd).getD
            (Json.str "No claim provided"))
          (((kvs.find? (fun kv => kv.1 == "confidence")).map Prod.snd).getD
            (Json.num 0))
          (((kvs.find? (fun kv => kv.1 == "failure_modes")).map Prod.snd).getD
            (Json.arr [])))
      | _ => .error "AttributeError: object has no attribute get" := by
  cases hj : d.output.getD (Json.obj []) <;>
    simp [extract_block, py_get, hj, Bind.bind, Except.bind, pure, Except.pure]

/-- A successfully extracted peer block is named after its map entry. -/
theorem extract_block_name (n : String) (d : Outcome) (b : Block)
    (h : extract_block n d = .ok b) : b.name = n := by
  rw [extract_block_eq] at h
  cases hj : d.output.getD (Json.obj []) <;> rw [hj] at h <;> simp at h
  case obj kvs => rw [← h]

/-- The names of the extracted peer blocks are exactly the non-self keys
of the results map, in map order. -/
theorem bridge_blocks_names (X : String) (m : List (String × Outcome)) (bs : List Block)
    (hbs : bridge_blocks X m = .ok bs) :
    bs.map Block.name = (m.map Prod.fst).filter (fun n => !(n == X)) := by
  induction m generalizing bs with
  | nil =>
      simp [bridge_blocks] at hbs
      subst hbs
      rfl
  | cons kv rest ih =>
      obtain ⟨n, d⟩ := kv
      by_cases hn : n = X
      · subst hn
        rw [bridge_blocks, if_pos rfl] at hbs
        simpa using ih bs hbs
      · rw [bridge_blocks, if_neg hn] at hbs
        cases he : extract_block n d with
        | error e => rw [he] at hbs; simp [Bind.bind, Except.bind] at hbs
        | ok b =>
            rw [he] at hbs
            cases hbb : bridge_blocks X rest with
            | error e =>
                rw [hbb] at hbs; simp [Bind.bind, Except.bind] at hbs
            | ok bs' =>
                rw [hbb] at hbs
                simp [Bind.bind, Except.bind, pure, Except.pure] at hbs
                subst hbs
                simp [extract_block_name n d b he, hn, ih bs' hbb]

/-- The loop text of `create_bridge_prompt` is the concatenation of the
renderings of the extracted peer blocks (with the first rendering
exception, if any, propagating in the same order). -/
theorem others_text_of_blocks (X : String) (m : List (String × Outcome)) (bs : List Block)
    (hbs : bridge_blocks X m = .ok bs) :
    others_text X m = (mapE render_block bs).map concat_texts := by
  induction m generalizing bs with
  | nil =>
      simp [bridge_blocks] at hbs
      subst hbs
      simp [others_text, mapE, concat_texts, Except.map]
  | cons kv rest ih =>
      obtain ⟨n, d⟩ := kv
      by_cases hn : n = X
      · subst hn
        rw [bridge_blocks, if_pos rfl] at hbs
        rw [others_text, if_pos rfl]
        exact ih bs hbs
      · rw [bridge_blocks, if_neg hn] at hbs
        rw [others_text, if_neg hn]
        cases he : extract_block n d with
        | error e => rw [he] at hbs; simp [Bind.bind, Except.bind] at hbs
        | ok b =>
            rw [he] at hbs
            cases hbb : bridge_blocks X rest with
            | error e => rw [hbb] at hbs; simp [Bind.bind, Except.bind] at hbs
            | ok bs' =>
                rw [hbb] at hbs
                simp [Bind.bind, Except.bind, pure, Except.pure] at hbs
                subst hbs
                simp only [Bind.bind, Except.bind, mapE, he]
                cases hr : render_block b with
                | error e => simp [hr, Except.map]
                | ok t =>
                    rw [ih bs' hbb]
                    cases hm : mapE render_block bs' with
                    | error e => simp [Except.map]
                    | ok ts => simp [Except.map, pure, Except.pure, concat_texts]

/-- An entry of the results map whose stored outcome has no `output`
key at all extracts to the full placeholder block. -/
theorem extract_block_placeholder (n : String) (d : Outcome) (hd : d.output = none) :
    extract_block n d =
      .ok (Block.mk n (Json.str "No claim provided") (Json.num 0) (Json.arr [])) := by
  rw [extract_block_eq, hd]
  rfl

/-- **C4 counterexample** (claim is false on the code). Concrete input:
the bridge prompt for agent `casper-3` is built over a round-1 results
mapping holding only `melchior-1` (as happens whenever a peer has no ok
round-1 outcome, since line 108 keeps only ok outcomes in the map). The
loop of `create_bridge_prompt` iterates the mapping, not the roster, so
the prompt's peer blocks are exactly one — not `|roster| − 1 = 2` — and
the absent peer `balthasar-2` is omitted entirely rather than appearing
as a placeholder block. (`bridge_blocks` is the block content of the
prompt: `others_text_of_blocks` proves the prompt text is exactly the
concatenation of these blocks' renderings.) -/
theorem C4_counterexample :
    bridge_blocks "casper-3"
        [("melchior-1", Outcome.mk "melchior-1" "ok" (some sample_claim_output) none none 1)]
      = .ok [Block.mk "melchior-1" (Json.str "a") (Json.num 1) (Json.arr [])] ∧
    [Block.mk "melchior-1" (Json.str "a") (Json.num 1) (Json.arr [])].length
      ≠ AGENTS.length - 1 ∧
    ([Block.mk "melchior-1" (Json.str "a") (Json.num 1) (Json.arr [])].map
        Block.name).contains "balthasar-2" = false := by
  refine ⟨rfl, by decide, by decide⟩

/-- **C4 amended** (proved). The bridge prompt built for agent `X` over
a results mapping contains one peer block per *non-self key of the
mapping*, in mapping order: it never includes `X`'s own report, its
block names are exactly the mapping's non-`X` keys, an entry present in
the mapping but lacking an `output` payload appears as the placeholder
block (claim "No claim provided", confidence 0, empty failure-mode
list) rather than being omitted, and — the case the orchestrator
actually produces, a mapping whose keys are the full roster — the
prompt has exactly `|roster| − 1` blocks. The final conjunct ties the
blocks to `create_bridge_prompt` itself: the prompt is the fixed
wrapper around the concatenated block renderings. -/
theorem C4_amended_peer_blocks (X : String) (m : List (String × Outcome))
    (bs : List Block) (hbs : bridge_blocks X m = .ok bs) :
    (∀ b ∈ bs, b.name ≠ X) ∧
    bs.map Block.name = (m.map Prod.fst).filter (fun n => !(n == X)) ∧
    (∀ n d, (n, d) ∈ m → n ≠ X → d.output = none →
      Block.mk n (Json.str "No claim provided") (Json.num 0) (Json.arr []) ∈ bs) ∧
    (m.map Prod.fst = AGENTS.map Prod.fst → X ∈ AGENTS.map Prod.fst →
      bs.length = AGENTS.length - 1) ∧
    (∀ p, create_bridge_prompt X p m =
      ((mapE render_block bs).map concat_texts).map (wrap_prompt p)) := by
  have hnames := bridge_blocks_names X m bs hbs
  refine ⟨?_, hnames, ?_, ?_, ?_⟩
  · intro b hb
    have hmem : b.name ∈ bs.map Block.name := List.mem_map_of_mem _ hb
    rw [hnames] at hmem
    have := List.of_mem_filter hmem
    simpa using this
  · clear hnames
    induction m generalizing bs with
    | nil => simp
    | cons kv rest ih =>
        obtain ⟨n0, d0⟩ := kv
        intro n d hmem hnX hout
        by_cases hn : n0 = X
        · subst hn
          rw [bridge_blocks, if_pos rfl] at hbs
          rcases List.mem_cons.mp hmem with heq | hmem'
          · exact absurd (congrArg Prod.fst heq) hnX
          · exact ih bs hbs n d hmem' hnX hout
        · rw [bridge_blocks, if_neg hn] at hbs
          cases he : extract_block n0 d0 with
          | error e => rw [he] at hbs; simp [Bind.bind, Except.bind] at hbs
          | ok b =>
              rw [he] at hbs
              cases hbb : bridge_blocks X rest with
              | error e => rw [hbb] at hbs; simp [Bind.bind, Except.bind] at hbs
              | ok bs' =>
                  rw [hbb] at hbs
                  simp [Bind.bind, Except.bind, pure, Except.pure] at hbs
                  subst hbs
                  rcases List.mem_cons.mp hmem with heq | hmem'
                  · obtain ⟨hn1, hd1⟩ := Prod.mk.injEq .. ▸ heq
                    subst hn1; subst hd1
                    rw [extract_block_placeholder n d hout] at he
                    simp at he
                    subst he
                    exact List.mem_cons_self _ _
                  · exact List.mem_cons_of_mem _ (ih bs' hbb n d hmem' hnX hout)
  · intro hro hX
    have hlen : bs.length =
        (((AGENTS.map Prod.fst).filter (fun n => !(n == X)))).length := by
      have := congrArg List.length hnames
      simpa [hro] using this
    rw [hlen]
    have hX3 : X = "melchior-1" ∨ X = "balthasar-2" ∨ X = "casper-3" := by
      simpa [AGENTS] using hX
    rcases hX3 with h | h | h <;> subst h <;> decide
  · intro p
    show (others_text X m).map (wrap_prompt p) = _
    rw [others_text_of_blocks X m bs hbs]

/-- Witness for the amended C4 over the full-roster map `c4_map`:
the blocks for `melchior-1` are exactly the two non-self entries, the
entries lacking an output appearing as placeholders, and the block
count is `|roster| − 1 = 2`. -/
theorem C4_amended_peer_blocks_witness :
    ([Block.mk "balthasar-2" (Json.str "No claim provided") (Json.num 0) (Json.arr []),
      Block.mk "casper-3" (Json.str "No claim provided") (Json.num 0) (Json.arr [])].map
        Block.name
      = (c4_map.map Prod.fst).filter (fun n => !(n == "melchior-1"))) ∧
    ([Block.mk "balthasar-2" (Json.str "No claim provided") (Json.num 0) (Json.arr []),
      Block.mk "casper-3" (Json.str "No claim provided") (Json.num 0) (Json.arr [])].length
      = AGENTS.length - 1) :=
  ⟨(C4_amended_peer_blocks "melchior-1" c4_map _ rfl).2.1,
   (C4_amended_peer_blocks "melchior-1" c4_map _ rfl).2.2.2.1 rfl (by simp [AGENTS])⟩

/-- The accumulation loop of `print_magi_report`, in closed form: when
every per-result confidence extraction succeeds, the loop returns the
sum of the extracted confidences and the length of the list. -/
theorem sum_confidences_ok (results : List Outcome) (c : Outcome → ℚ)
    (hc : ∀ r ∈ results, py_confidence r = .ok (c r)) :
    sum_confidences results = .ok ((results.map c).sum, results.length) := by
  induction results with
  | nil => simp [sum_confidences]
  | cons r rest ih =>
      have hr := hc r (List.mem_cons_self r rest)
      have hrest := ih (fun x hx => hc x (List.mem_cons_of_mem _ hx))
      rw [sum_confidences, hr, hrest]
      simp [Bind.bind, Except.bind, pure, Except.pure]

/-- **C1** (confirmed). For every final-outcome sequence whose
per-outcome confidence reads evaluate (to `c r` for each outcome `r` —
the payload's confidence when it carries one, the `0.0` default
otherwise, per `py_confidence`), `print_magi_report` computes exactly
`spec_average`: every outcome contributes its confidence (or 0) to the
numerator and counts in the denominator, an empty sequence yields 0
with no division fault, and the resolution line is the one selected by
the spec's descending thresholds ≥ 7/10, ≥ 1/2, ≥ 3/10. -/
theorem C1_aggregate_average_and_tier (results : List Outcome) (c : Outcome → ℚ)
    (hc : ∀ r ∈ results, py_confidence r = .ok (c r)) :
    print_magi_report results =
      .ok (spec_average (results.map c),
           tier_label (spec_tier (spec_average (results.map c)))) := by
  have hs := sum_confidences_ok results c hc
  have havg : (if results.length > 0 then
      ((results.map c).sum) / (results.length : ℚ) else 0) = spec_average (results.map c) := by
    by_cases h0 : results.length = 0
    · simp [h0, spec_average]
    · simp [spec_average, h0, Nat.pos_of_ne_zero h0]
  rw [print_magi_report, hs]
  simp only [Bind.bind, Except.bind, pure, Except.pure, havg]
  unfold spec_tier tier_label
  split_ifs <;> rfl

/-- Witness for C1 at the concrete list `c1_results`: the failed third
node still counts in the denominator, giving average
(9/10 + 3/5 + 0)/3 = 1/2, tier ConditionalApproval. -/
theorem C1_aggregate_average_and_tier_witness :
    print_magi_report c1_results =
      .ok (spec_average (c1_results.map c1_conf),
           tier_label (spec_tier (spec_average (c1_results.map c1_conf)))) ∧
    spec_average (c1_results.map c1_conf) = 1/2 ∧
    tier_label (spec_tier (1/2 : ℚ)) =
      ">> RESOLUTION: MAJORITY APPROVAL (CONDITIONAL) <<" :=
  ⟨C1_aggregate_average_and_tier c1_results c1_conf (by
      intro r hr
      simp only [c1_results, List.mem_cons, List.not_mem_nil, or_false] at hr
      rcases hr with rfl | rfl | rfl <;> rfl),
   by
     have hm : c1_results.map c1_conf = [9/10, 3/5, 0] := rfl
     rw [hm]
     norm_num [spec_average],
   by
     have h : spec_tier (1/2 : ℚ) = ResolutionTier.ConditionalApproval := by
       unfold spec_tier
       norm_num
     rw [h]
     rfl⟩

/-- Python dict assignment grows the dict by at most one entry. -/
theorem dict_insert_length (m : List (String × Outcome)) (k : String) (v : Outcome) :
    (dict_insert m k v).length ≤ m.length + 1 := by
  unfold dict_insert
  split
  · simp
  · simp

/-- The ok-results dict has at most as many entries as there are ok
outcomes in the round-1 list (duplicate agent keys collapse). -/
theorem build_results_map_length_le (rs : List Outcome) :
    (build_results_map rs).length ≤ (rs.filter (fun r => r.status == "ok")).length := by
  suffices h : ∀ m : List (String × Outcome),
      ((rs.foldl (fun m r => if r.status = "ok" then dict_insert m r.agent r else m) m).length
        ≤ m.length + (rs.filter (fun r => r.status == "ok")).length) by
    simpa [build_results_map] using h []
  induction rs with
  | nil => simp
  | cons r rest ih =>
      intro m
      simp only [List.foldl_cons, List.filter_cons]
      by_cases hs : r.status = "ok"
      · rw [if_pos hs]
        have hb : (r.status == "ok") = true := by simp [hs]
        rw [hb]
        calc (rest.foldl _ (dict_insert m r.agent r)).length
            ≤ (dict_insert m r.agent r).length
                + (rest.filter (fun r => r.status == "ok")).length := ih _
          _ ≤ (m.length + 1) + (rest.filter (fun r => r.status == "ok")).length := by
                have := dict_insert_length m r.agent r
                omega
          _ = m.length + (List.cons r (rest.filter (fun r => r.status == "ok"))).length := by
                simp
                omega
      · rw [if_neg hs]
        have hb : (r.status == "ok") = false := by simp [hs]
        rw [hb]
        exact (ih m).trans (by simp)

/-- **C3** (confirmed). Whenever fewer than the full roster — here, not
all three of `o1, o2, o3`, the round-1 outcomes of the three agents —
answer round 1 with status ok, the cycle returns `None` (QuorumFailed):
zero round-2 invocations are launched (the launch log holds exactly the
three round-1 calls), no aggregate is computed and no final report is
produced (the post-cycle report step yields an error, never a report
value). -/
theorem C3_quorum_failure_halts (invoke : String → String → String → Outcome)
    (user_prompt : String) (o1 o2 o3 : Outcome)
    (h1 : invoke "melchior-1" "melchior-1" user_prompt = o1)
    (h2 : invoke "balthasar-2" "balthasar-2" user_prompt = o2)
    (h3 : invoke "casper-3" "casper-3" user_prompt = o3)
    (hq : ¬(o1.status = "ok" ∧ o2.status = "ok" ∧ o3.status = "ok")) :
    run_magi_cycle invoke user_prompt =
      { result := .ok none,
        calls := [(1, "melchior-1", "melchior-1", user_prompt),
                  (1, "balthasar-2", "balthasar-2", user_prompt),
                  (1, "casper-3", "casper-3", user_prompt)] } ∧
    report_entry (run_magi_cycle invoke user_prompt) =
      .error "TypeError: NoneType object is not iterable" := by
  have hfil : ([o1, o2, o3].filter (fun r => r.status == "ok")).length < 3 := by
    by_cases s1 : o1.status = "ok" <;> by_cases s2 : o2.status = "ok" <;>
      by_cases s3 : o3.status = "ok" <;>
        simp_all [List.filter_cons, List.filter_nil, beq_iff_eq]
  have hlt : (build_results_map [o1, o2, o3]).length < 3 :=
    lt_of_le_of_lt (build_results_map_length_le _) hfil
  have hres : run_magi_cycle invoke user_prompt =
      { result := .ok none,
        calls := [(1, "melchior-1", "melchior-1", user_prompt),
                  (1, "balthasar-2", "balthasar-2", user_prompt),
                  (1, "casper-3", "casper-3", user_prompt)] } := by
    unfold run_magi_cycle
    simp only [AGENTS, List.map, h1, h2, h3]
    rw [if_pos hlt]
  exact ⟨hres, by rw [hres]; rfl⟩

/-- Witness for C3: with `quorum_fail_invoke` (melchior-1 times out in
round 1), the session halts after the three round-1 calls. -/
theorem C3_quorum_failure_halts_witness :
    run_magi_cycle quorum_fail_invoke "q" =
      { result := .ok none,
        calls := [(1, "melchior-1", "melchior-1", "q"),
                  (1, "balthasar-2", "balthasar-2", "q"),
                  (1, "casper-3", "casper-3", "q")] } ∧
    report_entry (run_magi_cycle quorum_fail_invoke "q") =
      .error "TypeError: NoneType object is not iterable" :=
  C3_quorum_failure_halts quorum_fail_invoke "q" _ _ _ rfl rfl rfl
    (by intro h; exact absurd h.1 (by decide))

/-- **C8** (the code contradicts the claim; see `run_magi_cycle` line
112 and `main` lines 200–201). In a session ending in quorum failure
the cycle does print a diagnostic and return `None`; but `main` then
passes that `None` straight to `print_magi_report`, whose `for res in
results` raises an uncaught `TypeError` — the program crashes instead
of terminating cleanly. Concretely, with `melchior-1` timing out in
round 1, the post-cycle step errors rather than producing any report
value. -/
theorem C8_quorum_failure_crashes_main :
    (run_magi_cycle quorum_fail_invoke "directive").result = .ok none ∧
    report_entry (run_magi_cycle quorum_fail_invoke "directive") =
      .error "TypeError: NoneType object is not iterable" := by
  constructor <;> rfl

/-- **C2** (confirmed). In any session whose round 1 passes quorum (all
three agents answer ok, `hok`; agent invocations tag their own name,
`hagent`, as `call_agent` guarantees; and the three bridge prompts
build without raising, `hb`), the cycle returns a final outcome per
agent in roster order: the agent's round-2 outcome when that outcome
has status ok, and otherwise — for a timed-out, errored or malformed
round-2 answer — its round-1 outcome, never the failed round-2 one. -/
theorem C2_merge_prefers_round2_falls_back_to_round1
    (invoke : String → String → String → Outcome) (user_prompt : String)
    (hagent : ∀ n m p, (invoke n m p).agent = n)
    (hok : ∀ p ∈ AGENTS, (invoke p.1 p.2 user_prompt).status = "ok")
    (hb : ∀ p ∈ AGENTS,
      (create_bridge_prompt p.1 user_prompt (r1_map invoke user_prompt)).isOk) :
    (run_magi_cycle invoke user_prompt).result =
      .ok (some (AGENTS.map (fun p =>
        let r2 := invoke p.1 p.2 (bridge_of invoke user_prompt p.1)
        if r2.status = "ok" then r2 else invoke p.1 p.2 user_prompt))) := by
  have hok1 : (invoke "melchior-1" "melchior-1" user_prompt).status = "ok" :=
    hok ("melchior-1", "melchior-1") (by simp [AGENTS])
  have hok2 : (invoke "balthasar-2" "balthasar-2" user_prompt).status = "ok" :=
    hok ("balthasar-2", "balthasar-2") (by simp [AGENTS])
  have hok3 : (invoke "casper-3" "casper-3" user_prompt).status = "ok" :=
    hok ("casper-3", "casper-3") (by simp [AGENTS])
  have hmap : build_results_map
      [invoke "melchior-1" "melchior-1" user_prompt,
       invoke "balthasar-2" "balthasar-2" user_prompt,
       invoke "casper-3" "casper-3" user_prompt] =
      [("melchior-1", invoke "melchior-1" "melchior-1" user_prompt),
       ("balthasar-2", invoke "balthasar-2" "balthasar-2" user_prompt),
       ("casper-3", invoke "casper-3" "casper-3" user_prompt)] := by
    unfold build_results_map
    simp only [List.foldl_cons, List.foldl_nil]
    rw [if_pos hok1, if_pos hok2, if_pos hok3,
      hagent "melchior-1" "melchior-1" user_prompt,
      hagent "balthasar-2" "balthasar-2" user_prompt,
      hagent "casper-3" "casper-3" user_prompt]
    rfl
  have hrm : r1_map invoke user_prompt =
      [("melchior-1", invoke "melchior-1" "melchior-1" user_prompt),
       ("balthasar-2", invoke "balthasar-2" "balthasar-2" user_prompt),
       ("casper-3", invoke "casper-3" "casper-3" user_prompt)] := by
    unfold r1_map
    simp only [AGENTS, List.map]
    exact hmap
  have hq : ¬(build_results_map
      [invoke "melchior-1" "melchior-1" user_prompt,
       invoke "balthasar-2" "balthasar-2" user_prompt,
       invoke "casper-3" "casper-3" user_prompt]).length < 3 := by
    rw [hmap]; simp
  have hb1 := hb ("melchior-1", "melchior-1") (by simp [AGENTS])
  have hb2 := hb ("balthasar-2", "balthasar-2") (by simp [AGENTS])
  have hb3 := hb ("casper-3", "casper-3") (by simp [AGENTS])
  obtain ⟨s1, hs1⟩ : ∃ s,
      create_bridge_prompt "melchior-1" user_prompt (r1_map invoke user_prompt)
        = .ok s := by
    cases hcb : create_bridge_prompt "melchior-1" user_prompt (r1_map invoke user_prompt) with
    | error e => rw [hcb] at hb1; simp [Except.isOk, Except.toBool] at hb1
    | ok s => exact ⟨s, rfl⟩
  obtain ⟨s2, hs2⟩ : ∃ s,
      create_bridge_prompt "balthasar-2" user_prompt (r1_map invoke user_prompt)
        = .ok s := by
    cases hcb : create_bridge_prompt "balthasar-2" user_prompt (r1_map invoke user_prompt) with
    | error e => rw [hcb] at hb2; simp [Except.isOk, Except.toBool] at hb2
    | ok s => exact ⟨s, rfl⟩
  obtain ⟨s3, hs3⟩ : ∃ s,
      create_bridge_prompt "casper-3" user_prompt (r1_map invoke user_prompt)
        = .ok s := by
    cases hcb : create_bridge_prompt "casper-3" user_prompt (r1_map invoke user_prompt) with
    | error e => rw [hcb] at hb3; simp [Except.isOk, Except.toBool] at hb3
    | ok s => exact ⟨s, rfl⟩
  have hbo1 : bridge_of invoke user_prompt "melchior-1" = s1 := by
    unfold bridge_of; rw [hs1]; rfl
  have hbo2 : bridge_of invoke user_prompt "balthasar-2" = s2 := by
    unfold bridge_of; rw [hs2]; rfl
  have hbo3 : bridge_of invoke user_prompt "casper-3" = s3 := by
    unfold bridge_of; rw [hs3]; rfl
  have hs1' : create_bridge_prompt "melchior-1" user_prompt
      (build_results_map
        [invoke "melchior-1" "melchior-1" user_prompt,
         invoke "balthasar-2" "balthasar-2" user_prompt,
         invoke "casper-3" "casper-3" user_prompt]) = .ok s1 := by
    rw [hmap, ← hrm]; exact hs1
  have hs2' : create_bridge_prompt "balthasar-2" user_prompt
      (build_results_map
        [invoke "melchior-1" "melchior-1" user_prompt,
         invoke "balthasar-2" "balthasar-2" user_prompt,
         invoke "casper-3" "casper-3" user_prompt]) = .ok s2 := by
    rw [hmap, ← hrm]; exact hs2
  have hs3' : create_bridge_prompt "casper-3" user_prompt
      (build_results_map
        [invoke "melchior-1" "melchior-1" user_prompt,
         invoke "balthasar-2" "balthasar-2" user_prompt,
         invoke "casper-3" "casper-3" user_prompt]) = .ok s3 := by
    rw [hmap, ← hrm]; exact hs3
  have hget : ∀ (X : String) (pr : String),
      dict_get (build_results_map
        [invoke "melchior-1" "melchior-1" user_prompt,
         invoke "balthasar-2" "balthasar-2" user_prompt,
         invoke "casper-3" "casper-3" user_prompt])
        (invoke X X pr).agent
        = dict_get
          [("melchior-1", invoke "melchior-1" "melchior-1" user_prompt),
           ("balthasar-2", invoke "balthasar-2" "balthasar-2" user_prompt),
           ("casper-3", invoke "casper-3" "casper-3" user_prompt)] X := by
    intro X pr
    rw [hmap, hagent X X pr]
  unfold run_magi_cycle
  simp only [AGENTS, List.map]
  rw [if_neg hq]
  simp only [mapE, hs1', hs2', hs3', Except.map, Bind.bind, Except.bind,
    pure, Except.pure, List.map]
  rw [hget "melchior-1" s1, hget "balthasar-2" s2, hget "casper-3" s3]
  have e11 : ("melchior-1" == "melchior-1") = true := rfl
  have e12 : ("melchior-1" == "balthasar-2") = false := rfl
  have e22 : ("balthasar-2" == "balthasar-2") = true := rfl
  have e13 : ("melchior-1" == "casper-3") = false := rfl
  have e23 : ("balthasar-2" == "casper-3") = false := rfl
  have e33 : ("casper-3" == "casper-3") = true := rfl
  simp only [dict_get, List.find?, Option.map, e11, e12, e22, e13, e23, e33]
  rw [← apply_ite Except.ok ((invoke "melchior-1" "melchior-1" s1).status = "ok"),
    ← apply_ite Except.ok ((invoke "balthasar-2" "balthasar-2" s2).status = "ok"),
    ← apply_ite Except.ok ((invoke "casper-3" "casper-3" s3).status = "ok")]
  simp only [mapE, Bind.bind, Except.bind, pure, Except.pure]
  rw [hbo1, hbo2, hbo3]

/-- Witness for C2: with `c2_invoke` every agent answers the round-1
prompt `"q"` ok and times out on the round-2 bridge prompts, so every
final outcome is the round-1 fallback — never a timeout outcome. -/
theorem C2_merge_prefers_round2_falls_back_to_round1_witness :
    (run_magi_cycle c2_invoke "q").result =
      .ok (some (AGENTS.map (fun p =>
        let r2 := c2_invoke p.1 p.2 (bridge_of c2_invoke "q" p.1)
        if r2.status = "ok" then r2 else c2_invoke p.1 p.2 "q"))) :=
  C2_merge_prefers_round2_falls_back_to_round1 c2_invoke "q"
    (by
      intro n m p
      unfold c2_invoke
      split <;> rfl)
    (by intro p hp; fin_cases hp <;> rfl)
    (by intro p hp; fin_cases hp <;> rfl)
